import Mathlib

/-!
Shallow embedding of `src/main.js` of the gemini-pr-reviewer GitHub action.

The program is a linear pipeline: `run` fetches a pull-request diff
(`fetchCodeDiff`), sends it to the Gemini model with a bounded retry loop
(`getGeminiReview`), and posts the parsed findings (`postReviewComments`).
External effects (the HTTP fetch of each model attempt, the two octokit
posting calls) are modelled by environment values describing the outcome of
each call; the JavaScript control flow around them is embedded faithfully.
-/

/-- JavaScript values produced by `JSON.parse`.  Numbers are modelled as
integers: no claim depends on non-integral numerics. -/
inductive Json where
  | null : Json
  | bool : Bool → Json
  | num : Int → Json
  | str : String → Json
  | arr : List Json → Json
  | obj : List (String × Json) → Json

/-- Property access `j.k` on a JavaScript value: objects yield the field
(`none` models `undefined` when absent), primitives and arrays yield
`undefined` for these field names. -/
def Json.getField : Json → String → Option Json
  | .obj fields, k => fields.lookup k
  | _, _ => none

/-- Outcome of one `fetch` of the model endpoint, as observed by the loop
body of `getGeminiReview`: a non-ok HTTP response, an ok response without
`candidates[0].content.parts[0].text`, or one carrying that text. -/
inductive ModelResponse where
  | httpError : String → ModelResponse
  | noText : ModelResponse
  | withText : String → ModelResponse
  deriving DecidableEq

/-- One iteration of the retry loop in `getGeminiReview`, lines 159-182 of
`main.js`, given the `JSON.parse` function and the incoming `rawJsonText`.
Returns the parsed comments on success and the updated `rawJsonText`.
Line 177 assigns `rawJsonText` before line 178 parses, so the text is
recorded even when parsing then fails; and before returning, line 179
reads `comments.length` inside the `try` — when `JSON.parse` returned
`null` that read throws a `TypeError`, so the attempt fails (every other
JSON value yields `undefined` or a number there without throwing and is
returned as the findings). -/
def attemptStep (parse : String → Option Json) (resp : ModelResponse)
    (rawJsonText : String) : Option Json × String :=
  match resp with
  | .httpError _ => (none, rawJsonText)
  | .noText => (none, rawJsonText)
  | .withText raw =>
    match parse raw with
    | some .null => (none, raw)
    | some comments => (some comments, raw)
    | none => (none, raw)

/-- Whether an attempt succeeds, and with which parsed value, is independent
of the incoming `rawJsonText`.  A parse result of `null` is not a success:
the `comments.length` read at line 179 throws on it inside the `try`. -/
def attemptOk (parse : String → Option Json) : ModelResponse → Option Json
  | .httpError _ => none
  | .noText => none
  | .withText raw =>
    match parse raw with
    | some .null => none
    | some comments => some comments
    | none => none

theorem attemptStep_fst (parse : String → Option Json) (resp : ModelResponse)
    (raw : String) : (attemptStep parse resp raw).1 = attemptOk parse resp := by
  cases resp with
  | httpError s => rfl
  | noText => rfl
  | withText r =>
    cases hp : parse r with
    | none => simp [attemptStep, attemptOk, hp]
    | some j => cases j <;> simp [attemptStep, attemptOk, hp]

theorem attemptStep_snd_withText (parse : String → Option Json) (raw r : String) :
    (attemptStep parse (.withText raw) r).2 = raw := by
  cases hp : parse raw with
  | none => simp [attemptStep, hp]
  | some j => cases j <;> simp [attemptStep, hp]

theorem attemptOk_withText (parse : String → Option Json) (raw : String) (j : Json)
    (hp : parse raw = some j) (hnn : j ≠ .null) :
    attemptOk parse (.withText raw) = some j := by
  cases j with
  | null => exact absurd rfl hnn
  | bool b => simp [attemptOk, hp]
  | num n => simp [attemptOk, hp]
  | str s => simp [attemptOk, hp]
  | arr xs => simp [attemptOk, hp]
  | obj fields => simp [attemptOk, hp]

/-- Message of the error thrown at line 188-190 when attempt 3 fails. -/
def exhaustionMessage (rawJsonText : String) : String :=
  "Gemini API request has failed after multiple tries. Last raw response: " ++ rawJsonText

/-- Result of the retry loop: the returned comments or the thrown error
message, the backoff delays performed (in milliseconds, in order), and the
number of fetch attempts made. -/
structure LoopOut where
  result : Except String Json
  delays : List Nat
  attemptsMade : Nat

/-- The retry loop `for (let i = 0; i < 3; i++)` of `getGeminiReview`,
with `fuel` the number of remaining iterations (entered with `fuel = 3`,
`i = 0`, `rawJsonText = ''`).  A successful attempt returns at once; a
failed attempt with `i === 2` throws the exhaustion error; otherwise the
loop sleeps `2000 * (i + 1)` ms and continues.  The `fuel = 0` case is
unreachable from the entry point since iteration `i = 2` always returns or
throws. -/
def getGeminiReviewLoop (parse : String → Option Json)
    (responses : Nat → ModelResponse) :
    Nat → Nat → String → List Nat → LoopOut
  | 0, _, _, delays => ⟨.error "", delays, 3⟩
  | fuel + 1, i, rawJsonText, delays =>
    match (attemptStep parse (responses i) rawJsonText).1 with
    | some comments => ⟨.ok comments, delays, i + 1⟩
    | none =>
      if i = 2 then
        ⟨.error (exhaustionMessage (attemptStep parse (responses i) rawJsonText).2),
          delays, i + 1⟩
      else
        getGeminiReviewLoop parse responses fuel (i + 1)
          (attemptStep parse (responses i) rawJsonText).2
          (delays ++ [2000 * (i + 1)])

/-- The value of the `rawJsonText` variable after `n` iterations of the
loop, starting from the initial `''`. -/
def lastRawUpTo (parse : String → Option Json)
    (responses : Nat → ModelResponse) : Nat → String
  | 0 => ""
  | n + 1 => (attemptStep parse (responses n) (lastRawUpTo parse responses n)).2

/-- The `GEMINI_SYSTEM_PROMPT` constant of `main.js` (lines 95-116), the
fixed system instruction of every model request. -/
def GEMINI_SYSTEM_PROMPT : String :=
  "\n    You are an experienced Software Architect conducting a code review."
  ++ "\n    Your task is to analyze the provided code diff."
  ++ "\n    Return your feedback ONLY in the following JSON format, commenting on bugs, security vulnerabilities, and improvements directly on the affected line."
  ++ "\n    "
  ++ "\n    ***CRITICAL INSTRUCTION FOR LINE NUMBER***"
  ++ "\n    The \x27line\x27 MUST be the line number in the TARGET FILE (after the change)."
  ++ "\n    The line MUST be based on a line that starts with a PLUS sign (+) in the diff."
  ++ "\n    Ignore lines that were deleted (-) or context lines ( )."
  ++ "\n    You MUST derive the line number from the Hunk Header Information (e.g., \x27@@ -X,Y +A,B @@\x27) by using the starting line (A) and the number of added lines (B)."
  ++ "\n    "
  ++ "\n    If there are no comments, reply with an empty JSON list: []."
  ++ "\n    "
  ++ "\n    JSON Schema:"
  ++ "\n    ["
  ++ "\n      \x7b"
  ++ "\n        \"path\": \"string\", // The file path, e.g., \"src/server.js\""
  ++ "\n        \"line\": \"number\", // The line number in the NEW file (MUST be a line starting with \x27+ \x27)."
  ++ "\n        \"comment\": \"string\" // The detailed comment, in German."
  ++ "\n      \x7d"
  ++ "\n    ]"
  ++ "\n"

/-- The `userQuery` built at lines 129-131: a fixed instruction followed by
the raw diff text, sent verbatim. -/
def userQuery (codeDiff : String) : String :=
  "Please analyze the following code-diff and write the comments as JSON:\n\n" ++ codeDiff

/-- The `responseSchema` object of lines 133-144, requiring each array
element to carry `path`, `line` and `comment`. -/
def responseSchema : Json :=
  .obj [("type", .str "ARRAY"),
        ("items", .obj
          [("type", .str "OBJECT"),
           ("properties", .obj
             [("path", .obj [("type", .str "STRING")]),
              ("line", .obj [("type", .str "NUMBER")]),
              ("comment", .obj [("type", .str "STRING")])]),
           ("required", .arr [.str "path", .str "line", .str "comment"])])]

/-- The request `payload` of lines 146-153.  It depends on the diff only;
the model name goes into the URL and the API key into a header. -/
def payload (codeDiff : String) : Json :=
  .obj [("contents", .arr [.obj [("parts", .arr [.obj [("text", .str (userQuery codeDiff))]])]]),
        ("systemInstruction", .obj [("parts", .arr [.obj [("text", .str GEMINI_SYSTEM_PROMPT)]])]),
        ("generationConfig", .obj
          [("responseMimeType", .str "application/json"),
           ("responseSchema", responseSchema)])]

/-- The HTTP request issued by each attempt of `getGeminiReview`
(lines 128, 161-168).  The body is the payload value; the transport applies
the deterministic injective `JSON.stringify` encoder to it. -/
structure ModelRequest where
  url : String
  method : String
  headers : List (String × String)
  body : Json

/-- Request construction of `getGeminiReview`: URL from the model name,
`Content-Type` and `X-Goog-Api-Key` headers, JSON payload as body. -/
def buildModelRequest (apiKey model codeDiff : String) : ModelRequest where
  url := "https://generativelanguage.googleapis.com/v1beta/models/" ++ model ++ ":generateContent"
  method := "POST"
  headers := [("Content-Type", "application/json"), ("X-Goog-Api-Key", apiKey)]
  body := payload codeDiff

/-- Full result of `getGeminiReview`: the request sent on every attempt
(built once, before the loop), the returned comments or thrown error
message, the backoff delays, and the number of attempts made. -/
structure GeminiResult where
  request : ModelRequest
  result : Except String Json
  delays : List Nat
  attemptsMade : Nat

/-- The function `getGeminiReview(apiKey, model, codeDiff)` of lines
127-194, with the outcome of the fetch of each attempt supplied by `responses`
and `JSON.parse` supplied by `parse`. -/
def getGeminiReview (apiKey model codeDiff : String)
    (parse : String → Option Json) (responses : Nat → ModelResponse) :
    GeminiResult :=
  let l := getGeminiReviewLoop parse responses 3 0 "" []
  ⟨buildModelRequest apiKey model codeDiff, l.result, l.delays, l.attemptsMade⟩

/-- The function `fetchCodeDiff` of lines 75-92, applied to the diff text
returned by `octokit.rest.pulls.get` (`diffResponse.data`).  The guard
`!codeDiff || codeDiff.length < 10` returns `null` for falsy (empty) or
short diffs; otherwise the diff is returned unchanged. -/
def fetchCodeDiff (codeDiff : String) : Option String :=
  if codeDiff = "" ∨ codeDiff.length < 10 then none else some codeDiff

mutual

/-- JavaScript string coercion `String(v)` as used by template-literal
interpolation in the fallback body.  Array elements are joined with commas;
the claims never interpolate arrays or objects, so the special casing of
`null` inside array joins by the engine is not modelled. -/
def Json.jsToString : Json → String
  | .null => "null"
  | .bool true => "true"
  | .bool false => "false"
  | .num n => toString n
  | .str s => s
  | .arr xs => String.intercalate "," (Json.jsToStringList xs)
  | .obj _ => "[object Object]"

def Json.jsToStringList : List Json → List String
  | [] => []
  | x :: xs => Json.jsToString x :: Json.jsToStringList xs

end

/-- Interpolation of a possibly-undefined property: `undefined` prints as
the string `undefined`. -/
def jsShow : Option Json → String
  | none => "undefined"
  | some j => j.jsToString

/-- `Array.prototype.join(sep)` on a list of strings. -/
def joinWith (sep : String) : List String → String
  | [] => ""
  | [x] => x
  | x :: y :: xs => x ++ sep ++ joinWith sep (y :: xs)

/-- JavaScript `String.prototype.replace` with a string pattern: replaces
the first occurrence only. -/
def replaceFirst (s pattern replacement : String) : String :=
  match s.splitOn pattern with
  | [] => s
  | [x] => x
  | x :: y :: rest => x ++ replacement ++ String.intercalate pattern (y :: rest)

/-- One element of the `githubComments` array built at lines 213-217:
`{path: c.path, line: c.line, body: c.comment}`.  Fields hold whatever the
parsed finding carried; `none` models `undefined`. -/
structure GithubComment where
  path : Option Json
  line : Option Json
  body : Option Json

/-- The `.map` callback of line 213 applied to one parsed finding.  A
`null` element makes the property accesses throw (`none` result); any
other value yields its `path`/`line`/`comment` fields (possibly
`undefined`). -/
def toGithubComment : Json → Option GithubComment
  | .null => none
  | j => some ⟨j.getField "path", j.getField "line", j.getField "comment"⟩

/-- Errors thrown inside the pipeline of `run`: a `TypeError` from calling
`.map` on a non-array, or an API error carrying an HTTP `status` (octokit
request errors). -/
inductive JsError where
  | typeError : String → JsError
  | apiError : Nat → String → JsError
  deriving DecidableEq

/-- The `message` property read by `core.setFailed(error.message)`. -/
def JsError.message : JsError → String
  | .typeError m => m
  | .apiError _ m => m

/-- The `status` property tested by `error.status === 422`; a `TypeError`
has no status. -/
def JsError.status : JsError → Option Nat
  | .typeError _ => none
  | .apiError s _ => some s

/-- Modelled message of the `TypeError` thrown when `aiReviewComments` is
not an array (the exact engine wording varies by value shape). -/
def mapTypeErrorMsg : String :=
  "aiReviewComments.map is not a function"

/-- The header line shared by the positive comment and the review summary
(the source file stores the robot emoji as the mojibake bytes U+00F0 U+0178
U+00A4 U+2013). -/
def robotHeader : String :=
  "## ðŸ¤– AI Code Review by Gemini"

/-- Body of the positive comment posted at lines 220-227 when no findings
were generated. -/
def noIssuesBody : String :=
  robotHeader ++ "\n\nNo critical issues found. **Looks good!**"

/-- The `reviewSummary` template literal of lines 232-240, a function of
the number of comments. -/
def reviewSummaryText (n : Nat) : String :=
  "\n    " ++ robotHeader ++ "\n    "
  ++ "\n    I\x27ve left " ++ toString n ++ " specific comments on the changes. Please check the marked lines in the \"Files changed\" tab.\n    "
  ++ "\n    ---\n    "
  ++ "\n    *Please note: I am an AI, and my suggestions are recommendations only. A human review remains essential!*"
  ++ "\n  "

/-- One entry of the `Feedback Details` list in the fallback body
(line 275): `- **path (Line N):** comment`. -/
def feedbackEntry (c : GithubComment) : String :=
  "- **" ++ jsShow c.path ++ " (Line " ++ jsShow c.line ++ "):** " ++ jsShow c.body

/-- The `fallbackBody` template literal of lines 259-277 (the warning-sign
emoji is stored as the mojibake bytes U+00E2 U+0161 U+00A0 U+00EF U+00B8).
Restates the summary with its header stripped and re-lists every finding as
flat text. -/
def fallbackPrefixText (reviewSummary : String) : String :=
  "\n        ## âš ï¸ AI Review Error (Fallback)\n        "
  ++ "\n        **The attempt to set line-specific comments failed due to invalid line numbers (422 error).**\n        "
  ++ "\n        Here is the generated feedback as a general comment:\n        "
  ++ "\n        ---\n        "
  ++ "\n        **Summary:** " ++ replaceFirst reviewSummary robotHeader "" ++ " \n        "
  ++ "\n        **Feedback Details:**"
  ++ "\n        "

/-- Assembly of the fallback body: fixed text and stripped summary, then
the joined feedback entries, then the closing indentation. -/
def fallbackBodyText (reviewSummary : String) (githubComments : List GithubComment) : String :=
  fallbackPrefixText reviewSummary
  ++ joinWith "\n" (githubComments.map feedbackEntry)
  ++ "\n      "

/-- Tri-state outcome of the posting step. -/
inductive PostOutcome where
  | noIssues : PostOutcome
  | inlinePosted : PostOutcome
  | fallbackPosted : PostOutcome
  deriving DecidableEq

/-- One outward octokit call, with the body it carried and whether the
collaborator accepted it. -/
inductive CallEvent where
  | createComment : String → Bool → CallEvent
  | createReview : String → String → List GithubComment → Bool → CallEvent

/-- Whether the collaborator accepted the call. -/
def CallEvent.accepted : CallEvent → Bool
  | .createComment _ ok => ok
  | .createReview _ _ _ ok => ok

/-- Whether the call is a `pulls.createReview` call. -/
def CallEvent.isReview : CallEvent → Bool
  | .createComment _ _ => false
  | .createReview _ _ _ _ => true

/-- Collaborator behaviour for the posting step: the error thrown by
`pulls.createReview` (if any) and by `issues.createComment` (if any);
`none` means the call succeeds.  At most one `createComment` call happens
per invocation. -/
structure PostEnv where
  createReviewResult : Option JsError
  createCommentResult : Option JsError

/-- The `aiReviewComments.map(...)` of lines 213-217 over the elements of
the findings array: produces the `githubComments` array, or throws
(`none`) at the first element whose property accesses throw. -/
def mapComments : List Json → Option (List GithubComment)
  | [] => some []
  | f :: fs =>
    match toGithubComment f, mapComments fs with
    | some c, some cs => some (c :: cs)
    | _, _ => none

/-- The function `postReviewComments` of lines 205-290, returning the
normal or thrown result together with the outward calls attempted, in
order.  Mirrors the source: map findings to `{path, line, body}` (throws on
a non-array), post the positive comment when empty, otherwise attempt one
`COMMENT`-mode review and fall back to a single aggregate comment exactly
when the review call fails with status 422. -/
def postReviewComments (env : PostEnv) (aiReviewComments : Json) :
    Except JsError PostOutcome × List CallEvent :=
  match aiReviewComments with
  | .arr findings =>
    match mapComments findings with
    | none => (.error (.typeError mapTypeErrorMsg), [])
    | some githubComments =>
      if githubComments.length = 0 then
        match env.createCommentResult with
        | none => (.ok .noIssues, [.createComment noIssuesBody true])
        | some e => (.error e, [.createComment noIssuesBody false])
      else
        match env.createReviewResult with
        | none =>
            (.ok .inlinePosted,
             [.createReview "COMMENT" (reviewSummaryText githubComments.length)
                githubComments true])
        | some e =>
          if e.status = some 422 then
            match env.createCommentResult with
            | none =>
                (.ok .fallbackPosted,
                 [.createReview "COMMENT" (reviewSummaryText githubComments.length)
                    githubComments false,
                  .createComment
                    (fallbackBodyText (reviewSummaryText githubComments.length)
                      githubComments) true])
            | some e2 =>
                (.error e2,
                 [.createReview "COMMENT" (reviewSummaryText githubComments.length)
                    githubComments false,
                  .createComment
                    (fallbackBodyText (reviewSummaryText githubComments.length)
                      githubComments) false])
          else
            (.error e,
             [.createReview "COMMENT" (reviewSummaryText githubComments.length)
                githubComments false])
  | _ => (.error (.typeError mapTypeErrorMsg), [])

/-- Environment of one invocation of `run`: the trigger event name, the
configuration inputs, the diff text served by `pulls.get`, the `JSON.parse`
function, the per-attempt model responses, and the collaborator behaviour
for the posting calls. -/
structure RunEnv where
  eventName : String
  apiKey : String
  model : String
  diffData : String
  parse : String → Option Json
  responses : Nat → ModelResponse
  post : PostEnv

/-- Externally observable trace of one invocation of `run`: how many model
fetch attempts were made, which posting calls were attempted, and the
`core.setFailed` message if any. -/
structure RunTrace where
  modelCalls : Nat
  posts : List CallEvent
  failed : Option String

/-- The entry point `run` of lines 8-36: event guard (from
`initializeAction`), diff fetch with early return on an insignificant
diff, model call, posting, and the top-level catch feeding
`core.setFailed(error.message)`. -/
def run (env : RunEnv) : RunTrace :=
  if env.eventName = "pull_request" then
    match fetchCodeDiff env.diffData with
    | none => ⟨0, [], none⟩
    | some codeDiff =>
      let g := getGeminiReview env.apiKey env.model codeDiff env.parse env.responses
      match g.result with
      | .error msg => ⟨g.attemptsMade, [], some msg⟩
      | .ok comments =>
        match postReviewComments env.post comments with
        | (.ok _, calls) => ⟨g.attemptsMade, calls, none⟩
        | (.error e, calls) => ⟨g.attemptsMade, calls, some e.message⟩
  else
    ⟨0, [], some "This action is only available for pull requests!"⟩

theorem loop_succ (parse : String → Option Json) (responses : Nat → ModelResponse)
    (fuel i : Nat) (raw : String) (delays : List Nat) (j : Json)
    (h : attemptOk parse (responses i) = some j) :
    getGeminiReviewLoop parse responses (fuel + 1) i raw delays = ⟨.ok j, delays, i + 1⟩ := by
  unfold getGeminiReviewLoop
  rw [attemptStep_fst, h]

theorem loop_fail_cont (parse : String → Option Json) (responses : Nat → ModelResponse)
    (fuel i : Nat) (raw : String) (delays : List Nat)
    (h : attemptOk parse (responses i) = none) (hi : i ≠ 2) :
    getGeminiReviewLoop parse responses (fuel + 1) i raw delays =
      getGeminiReviewLoop parse responses fuel (i + 1)
        (attemptStep parse (responses i) raw).2 (delays ++ [2000 * (i + 1)]) := by
  conv_lhs => unfold getGeminiReviewLoop
  rw [attemptStep_fst, h]
  simp [hi]

theorem loop_fail_last (parse : String → Option Json) (responses : Nat → ModelResponse)
    (fuel : Nat) (raw : String) (delays : List Nat)
    (h : attemptOk parse (responses 2) = none) :
    getGeminiReviewLoop parse responses (fuel + 1) 2 raw delays =
      ⟨.error (exhaustionMessage (attemptStep parse (responses 2) raw).2), delays, 3⟩ := by
  conv_lhs => unfold getGeminiReviewLoop
  rw [attemptStep_fst, h]
  rfl

theorem geminiLoop_all_fail (parse : String → Option Json) (responses : Nat → ModelResponse)
    (h0 : attemptOk parse (responses 0) = none)
    (h1 : attemptOk parse (responses 1) = none)
    (h2 : attemptOk parse (responses 2) = none) :
    getGeminiReviewLoop parse responses 3 0 "" [] =
      ⟨.error (exhaustionMessage (lastRawUpTo parse responses 3)), [2000, 4000], 3⟩ := by
  have r1 : lastRawUpTo parse responses 1 = (attemptStep parse (responses 0) "").2 := rfl
  have r2 : lastRawUpTo parse responses 2 =
      (attemptStep parse (responses 1) (lastRawUpTo parse responses 1)).2 := rfl
  have r3 : lastRawUpTo parse responses 3 =
      (attemptStep parse (responses 2) (lastRawUpTo parse responses 2)).2 := rfl
  calc getGeminiReviewLoop parse responses 3 0 "" []
      = getGeminiReviewLoop parse responses 2 1 (lastRawUpTo parse responses 1) [2000] := by
        rw [show (3 : Nat) = 2 + 1 from rfl,
          loop_fail_cont parse responses 2 0 "" [] h0 (by decide), r1]
        norm_num
    _ = getGeminiReviewLoop parse responses 1 2 (lastRawUpTo parse responses 2) [2000, 4000] := by
        rw [show (2 : Nat) = 1 + 1 from rfl,
          loop_fail_cont parse responses 1 1 (lastRawUpTo parse responses 1) [2000] h1
            (by decide), r2]
        norm_num
    _ = ⟨.error (exhaustionMessage (lastRawUpTo parse responses 3)), [2000, 4000], 3⟩ := by
        rw [show (1 : Nat) = 0 + 1 from rfl,
          loop_fail_last parse responses 0 (lastRawUpTo parse responses 2) [2000, 4000] h2, r3]

theorem loop_attemptsMade_le (parse : String → Option Json) (responses : Nat → ModelResponse) :
    ∀ fuel i raw delays,
      (getGeminiReviewLoop parse responses fuel i raw delays).attemptsMade ≤ max 3 (i + fuel) := by
  intro fuel
  induction fuel with
  | zero =>
    intro i raw delays
    exact le_max_left 3 (i + 0)
  | succ n ih =>
    intro i raw delays
    unfold getGeminiReviewLoop
    cases hs : (attemptStep parse (responses i) raw).1 with
    | some j =>
      simp only []
      exact le_trans (by omega) (le_max_right 3 (i + (n + 1)))
    | none =>
      by_cases hi : i = 2
      · subst hi
        simp only [if_pos rfl]
        exact le_max_left 3 (2 + (n + 1))
      · simp only [if_neg hi]
        have h := ih (i + 1) (attemptStep parse (responses i) raw).2 (delays ++ [2000 * (i + 1)])
        have : i + 1 + n = i + (n + 1) := by omega
        rw [this] at h
        exact h

theorem gemini_attemptsMade_le (apiKey model codeDiff : String)
    (parse : String → Option Json) (responses : Nat → ModelResponse) :
    (getGeminiReview apiKey model codeDiff parse responses).attemptsMade ≤ 3 := by
  have h := loop_attemptsMade_le parse responses 3 0 "" []
  simpa [getGeminiReview] using h

/-- Test fixture: a `JSON.parse` that accepts the literal texts used by the
concrete witnesses below and rejects everything else. -/
def tJsonParse : String → Option Json :=
  fun s =>
    if s = "[]" then some (.arr [])
    else if s = "42" then some (.num 42)
    else if s = "null" then some .null
    else none

/-- Test fixture: model fails twice with HTTP errors, then returns `[]`. -/
def tRespFailTwice : Nat → ModelResponse :=
  fun i => if i = 2 then .withText "[]" else .httpError "Internal Server Error"

/-- Test fixture: model succeeds immediately with `[]`. -/
def tRespOk : Nat → ModelResponse :=
  fun _ => .withText "[]"

/-- Claim C1: the model-call retry loop makes at most 3 attempts; after a
failed attempt 1 it waits 2000 ms and after a failed attempt 2 it waits
4000 ms (2000 * attemptNumber, linear); a successful attempt ends the loop
at once with the parsed findings, so failing twice and succeeding on the
3rd attempt yields the same findings as succeeding on the 1st, with exactly
the two backoff delays 2000 and 4000 having occurred. -/
theorem claim_C1_retry_backoff
    (apiKey model codeDiff : String) (parse : String → Option Json)
    (resp3 resp1 : Nat → ModelResponse) (j : Json)
    (h0 : attemptOk parse (resp3 0) = none)
    (h1 : attemptOk parse (resp3 1) = none)
    (h2 : attemptOk parse (resp3 2) = some j)
    (g0 : attemptOk parse (resp1 0) = some j) :
    (∀ rs, (getGeminiReview apiKey model codeDiff parse rs).attemptsMade ≤ 3) ∧
    getGeminiReview apiKey model codeDiff parse resp3 =
      ⟨buildModelRequest apiKey model codeDiff, .ok j, [2000, 4000], 3⟩ ∧
    getGeminiReview apiKey model codeDiff parse resp1 =
      ⟨buildModelRequest apiKey model codeDiff, .ok j, [], 1⟩ ∧
    (getGeminiReview apiKey model codeDiff parse resp3).result =
      (getGeminiReview apiKey model codeDiff parse resp1).result := by
  have L3 : getGeminiReviewLoop parse resp3 3 0 "" [] = ⟨.ok j, [2000, 4000], 3⟩ := by
    rw [show (3 : Nat) = 2 + 1 from rfl, loop_fail_cont parse resp3 2 0 "" [] h0 (by decide)]
    rw [show (2 : Nat) = 1 + 1 from rfl,
      loop_fail_cont parse resp3 1 (0 + 1) (attemptStep parse (resp3 0) "").2
        ([] ++ [2000 * (0 + 1)]) h1 (by decide)]
    rw [show (1 : Nat) = 0 + 1 from rfl,
      loop_succ parse resp3 0 (0 + 1 + 1) _ _ j (by simpa using h2)]
    norm_num
  have L1 : getGeminiReviewLoop parse resp1 3 0 "" [] = ⟨.ok j, [], 1⟩ := by
    rw [show (3 : Nat) = 2 + 1 from rfl, loop_succ parse resp1 2 0 "" [] j g0]
  refine ⟨fun rs => gemini_attemptsMade_le apiKey model codeDiff parse rs, ?_, ?_, ?_⟩
  · simp [getGeminiReview, L3]
  · simp [getGeminiReview, L1]
  · simp [getGeminiReview, L3, L1]

/-- Concrete instantiation of `claim_C1_retry_backoff`: two HTTP failures
then a parse of `[]` give the same findings as an immediate success, with
delays 2000 then 4000. -/
theorem claim_C1_retry_backoff_witness :
    (∀ rs, (getGeminiReview "key" "gemini" "diff" tJsonParse rs).attemptsMade ≤ 3) ∧
    getGeminiReview "key" "gemini" "diff" tJsonParse tRespFailTwice =
      ⟨buildModelRequest "key" "gemini" "diff", .ok (.arr []), [2000, 4000], 3⟩ ∧
    getGeminiReview "key" "gemini" "diff" tJsonParse tRespOk =
      ⟨buildModelRequest "key" "gemini" "diff", .ok (.arr []), [], 1⟩ ∧
    (getGeminiReview "key" "gemini" "diff" tJsonParse tRespFailTwice).result =
      (getGeminiReview "key" "gemini" "diff" tJsonParse tRespOk).result :=
  claim_C1_retry_backoff "key" "gemini" "diff" tJsonParse tRespFailTwice tRespOk
    (.arr []) rfl rfl rfl rfl

/-- Claim C7: each model-call attempt sends a single HTTP POST whose URL
and body are independent of the API key — two runs differing only in the
key build identical URLs and payloads — and the key appears only in the
`X-Goog-Api-Key` request header. -/
theorem claim_C7_key_only_in_header (k1 k2 k model codeDiff : String) :
    (buildModelRequest k1 model codeDiff).url = (buildModelRequest k2 model codeDiff).url ∧
    (buildModelRequest k1 model codeDiff).body = (buildModelRequest k2 model codeDiff).body ∧
    (buildModelRequest k model codeDiff).method = "POST" ∧
    (buildModelRequest k model codeDiff).headers =
      [("Content-Type", "application/json"), ("X-Goog-Api-Key", k)] :=
  ⟨rfl, rfl, rfl, rfl⟩

/-- Test fixture: a collaborator that accepts every posting call. -/
def tPostEnvOk : PostEnv := ⟨none, none⟩

/-- Test fixture: a pull-request run whose served diff is below the
significance threshold. -/
def tEnvSmallDiff : RunEnv :=
  ⟨"pull_request", "key", "gemini", "tiny", tJsonParse, tRespOk, tPostEnvOk⟩

/-- Claim C3: a fetched diff that is empty or shorter than 10 characters
makes `fetchCodeDiff` return null and the pipeline stop early — no model
call and no posting call — while a diff at or above the threshold is
returned unchanged. -/
theorem claim_C3_diff_threshold :
    (∀ s : String, s.length < 10 → fetchCodeDiff s = none) ∧
    (∀ s : String, 10 ≤ s.length → fetchCodeDiff s = some s) ∧
    (∀ env : RunEnv, env.eventName = "pull_request" → env.diffData.length < 10 →
      run env = ⟨0, [], none⟩) := by
  have hshort : ∀ s : String, s.length < 10 → fetchCodeDiff s = none := by
    intro s h
    unfold fetchCodeDiff
    rw [if_pos (Or.inr h)]
  refine ⟨hshort, ?_, ?_⟩
  · intro s h
    unfold fetchCodeDiff
    rw [if_neg]
    push_neg
    refine ⟨?_, by omega⟩
    intro he
    rw [he] at h
    exact absurd h (by decide)
  · intro env hev hd
    unfold run
    rw [if_pos hev, hshort env.diffData hd]

/-- Concrete instantiation of `claim_C3_diff_threshold`: a 4-character
diff is rejected and yields a trace with no model call and no post, a
10-character diff is returned unchanged. -/
theorem claim_C3_diff_threshold_witness :
    fetchCodeDiff "tiny" = none ∧ fetchCodeDiff "0123456789" = some "0123456789" ∧
    run tEnvSmallDiff = ⟨0, [], none⟩ :=
  ⟨claim_C3_diff_threshold.1 "tiny" (by decide),
   claim_C3_diff_threshold.2.1 "0123456789" (by decide),
   claim_C3_diff_threshold.2.2 tEnvSmallDiff rfl (by decide)⟩

/-- Test fixture: all three attempts fail — attempt 2 extracts text that is
not valid JSON, attempts 1 and 3 fail at the HTTP stage. -/
def tRespAllFail : Nat → ModelResponse :=
  fun i => if i = 1 then .withText "not json" else .httpError "Bad Gateway"

/-- Test fixture: a run whose model calls all fail. -/
def tEnvAllFail : RunEnv :=
  ⟨"pull_request", "key", "gemini", "0123456789", tJsonParse, tRespAllFail, tPostEnvOk⟩

/-- Claim C2: when all 3 model-call attempts fail, `getGeminiReview` throws
an error whose message is the fixed prefix followed by the last raw
(unparsed) response text, and the run makes no posting call — neither
`createReview` nor `createComment`. -/
theorem claim_C2_retry_exhaustion (env : RunEnv)
    (hev : env.eventName = "pull_request")
    (hd : 10 ≤ env.diffData.length)
    (h0 : attemptOk env.parse (env.responses 0) = none)
    (h1 : attemptOk env.parse (env.responses 1) = none)
    (h2 : attemptOk env.parse (env.responses 2) = none) :
    (∀ apiKey model codeDiff,
      (getGeminiReview apiKey model codeDiff env.parse env.responses).result =
        .error (exhaustionMessage (lastRawUpTo env.parse env.responses 3))) ∧
    (∃ pre, exhaustionMessage (lastRawUpTo env.parse env.responses 3) =
      pre ++ lastRawUpTo env.parse env.responses 3) ∧
    run env = ⟨3, [], some (exhaustionMessage (lastRawUpTo env.parse env.responses 3))⟩ := by
  have L := geminiLoop_all_fail env.parse env.responses h0 h1 h2
  refine ⟨?_, ⟨"Gemini API request has failed after multiple tries. Last raw response: ", rfl⟩, ?_⟩
  · intro apiKey model codeDiff
    simp [getGeminiReview, L]
  · unfold run
    rw [if_pos hev]
    have hf : fetchCodeDiff env.diffData = some env.diffData := by
      unfold fetchCodeDiff
      rw [if_neg]
      push_neg
      refine ⟨?_, by omega⟩
      intro he
      rw [he] at hd
      exact absurd hd (by decide)
    rw [hf]
    simp [getGeminiReview, L]

/-- Concrete instantiation of `claim_C2_retry_exhaustion`: HTTP failure,
unparsable text `not json`, HTTP failure — the thrown message carries
`not json` and the trace shows three model calls and no posting call. -/
theorem claim_C2_retry_exhaustion_witness :
    (∀ apiKey model codeDiff,
      (getGeminiReview apiKey model codeDiff tEnvAllFail.parse tEnvAllFail.responses).result =
        .error (exhaustionMessage (lastRawUpTo tEnvAllFail.parse tEnvAllFail.responses 3))) ∧
    (∃ pre, exhaustionMessage (lastRawUpTo tEnvAllFail.parse tEnvAllFail.responses 3) =
      pre ++ lastRawUpTo tEnvAllFail.parse tEnvAllFail.responses 3) ∧
    run tEnvAllFail =
      ⟨3, [], some (exhaustionMessage (lastRawUpTo tEnvAllFail.parse tEnvAllFail.responses 3))⟩ :=
  claim_C2_retry_exhaustion tEnvAllFail rfl (by decide) rfl rfl rfl

/-- Test fixture: attempt 1 extracts unparsable text, attempts 2 and 3
fail before any text is extracted. -/
def tRespStale : Nat → ModelResponse :=
  fun i => if i = 0 then .withText "early raw" else if i = 1 then .httpError "Bad Gateway" else .noText

/-- Claim C10: `rawJsonText` is updated only on attempts that extracted a
text payload, so if the 3rd attempt fails at the HTTP or missing-text
stage the exhaustion message carries the text captured on an earlier
attempt — or the empty string when no attempt ever yielded text. -/
theorem claim_C10_stale_last_raw
    (parse : String → Option Json) (responses : Nat → ModelResponse)
    (h0 : attemptOk parse (responses 0) = none)
    (h1 : attemptOk parse (responses 1) = none)
    (h2stage : ∀ raw, responses 2 ≠ .withText raw) :
    lastRawUpTo parse responses 3 = lastRawUpTo parse responses 2 ∧
    (∀ apiKey model codeDiff,
      (getGeminiReview apiKey model codeDiff parse responses).result =
        .error (exhaustionMessage (lastRawUpTo parse responses 2))) ∧
    (∀ raw, responses 0 = .withText raw → responses 1 = .withText raw →
      lastRawUpTo parse responses 2 = raw) ∧
    (∀ raw, responses 1 = .withText raw → lastRawUpTo parse responses 2 = raw) ∧
    ((∀ raw, responses 0 ≠ .withText raw) → (∀ raw, responses 1 ≠ .withText raw) →
      lastRawUpTo parse responses 2 = "") := by
  have h2 : attemptOk parse (responses 2) = none := by
    cases hr : responses 2 with
    | httpError s => rfl
    | noText => rfl
    | withText raw => exact absurd hr (h2stage raw)
  have r3 : lastRawUpTo parse responses 3 =
      (attemptStep parse (responses 2) (lastRawUpTo parse responses 2)).2 := rfl
  have hstale : lastRawUpTo parse responses 3 = lastRawUpTo parse responses 2 := by
    rw [r3]
    cases hr : responses 2 with
    | httpError s => rfl
    | noText => rfl
    | withText raw => exact absurd hr (h2stage raw)
  have L := geminiLoop_all_fail parse responses h0 h1 h2
  rw [hstale] at L
  refine ⟨hstale, ?_, ?_, ?_, ?_⟩
  · intro apiKey model codeDiff
    simp [getGeminiReview, L]
  · intro raw _ hr1
    show (attemptStep parse (responses 1) (lastRawUpTo parse responses 1)).2 = raw
    rw [hr1, attemptStep_snd_withText]
  · intro raw hr1
    show (attemptStep parse (responses 1) (lastRawUpTo parse responses 1)).2 = raw
    rw [hr1, attemptStep_snd_withText]
  · intro hn0 hn1
    show (attemptStep parse (responses 1) (lastRawUpTo parse responses 1)).2 = ""
    have e1 : lastRawUpTo parse responses 1 = "" := by
      show (attemptStep parse (responses 0) "").2 = ""
      cases hr : responses 0 with
      | httpError s => rfl
      | noText => rfl
      | withText raw => exact absurd hr (hn0 raw)
    rw [e1]
    cases hr : responses 1 with
    | httpError s => rfl
    | noText => rfl
    | withText raw => exact absurd hr (hn1 raw)

/-- Concrete instantiation of `claim_C10_stale_last_raw`: the 1st attempt
extracted `early raw` (which failed to parse), attempts 2 and 3 failed
before extracting text, and the exhaustion message carries `early raw`. -/
theorem claim_C10_stale_last_raw_witness :
    lastRawUpTo tJsonParse tRespStale 3 = lastRawUpTo tJsonParse tRespStale 2 ∧
    (∀ apiKey model codeDiff,
      (getGeminiReview apiKey model codeDiff tJsonParse tRespStale).result =
        .error (exhaustionMessage (lastRawUpTo tJsonParse tRespStale 2))) ∧
    (∀ raw, tRespStale 0 = .withText raw → tRespStale 1 = .withText raw →
      lastRawUpTo tJsonParse tRespStale 2 = raw) ∧
    (∀ raw, tRespStale 1 = .withText raw → lastRawUpTo tJsonParse tRespStale 2 = raw) ∧
    ((∀ raw, tRespStale 0 ≠ .withText raw) → (∀ raw, tRespStale 1 ≠ .withText raw) →
      lastRawUpTo tJsonParse tRespStale 2 = "") :=
  claim_C10_stale_last_raw tJsonParse tRespStale rfl rfl
    (fun raw h => by simp [tRespStale] at h)

/-- Claim C4: for an empty findings list, `postReviewComments` posts
exactly one aggregate issue comment saying no critical issues were found,
and creates no pull-request review. -/
theorem claim_C4_no_findings (env : PostEnv) (hc : env.createCommentResult = none) :
    postReviewComments env (.arr []) = (.ok .noIssues, [.createComment noIssuesBody true]) ∧
    (∀ c ∈ [CallEvent.createComment noIssuesBody true], c.isReview = false) ∧
    ∃ pre suf, noIssuesBody = pre ++ ("No critical issues found." ++ suf) := by
  refine ⟨?_, ?_, robotHeader ++ "\n\n", " **Looks good!**", by decide⟩
  · simp [postReviewComments, mapComments, hc]
  · intro c hcm
    simp at hcm
    rw [hcm]
    rfl

/-- Concrete instantiation of `claim_C4_no_findings` with an accepting
collaborator. -/
theorem claim_C4_no_findings_witness :
    postReviewComments tPostEnvOk (.arr []) =
      (.ok .noIssues, [.createComment noIssuesBody true]) ∧
    (∀ c ∈ [CallEvent.createComment noIssuesBody true], c.isReview = false) ∧
    ∃ pre suf, noIssuesBody = pre ++ ("No critical issues found." ++ suf) :=
  claim_C4_no_findings tPostEnvOk rfl

/-- A well-formed finding object, as the response schema mandates:
`{path, line, comment}` built from a (path, line, comment) triple. -/
def mkFindingJson (t : String × Int × String) : Json :=
  .obj [("path", .str t.1), ("line", .num t.2.1), ("comment", .str t.2.2)]

/-- The inline-comment shape the code derives from a well-formed finding:
`{path: c.path, line: c.line, body: c.comment}`. -/
def mkGithubComment (t : String × Int × String) : GithubComment :=
  ⟨some (.str t.1), some (.num t.2.1), some (.str t.2.2)⟩

theorem toGithubComment_mk (t : String × Int × String) :
    toGithubComment (mkFindingJson t) = some (mkGithubComment t) := rfl

theorem mapComments_mk (ts : List (String × Int × String)) :
    mapComments (ts.map mkFindingJson) = some (ts.map mkGithubComment) := by
  induction ts with
  | nil => rfl
  | cons t ts ih => simp [mapComments, toGithubComment_mk, ih]

theorem mapComments_length (findings : List Json) :
    ∀ ghcs, mapComments findings = some ghcs → ghcs.length = findings.length := by
  induction findings with
  | nil =>
    intro ghcs h
    simp [mapComments] at h
    subst h
    rfl
  | cons f fs ih =>
    intro ghcs h
    rw [mapComments] at h
    cases hf : toGithubComment f with
    | none =>
      rw [hf] at h
      cases hm : mapComments fs with
      | none => rw [hm] at h; exact absurd h (by simp)
      | some cs => rw [hm] at h; exact absurd h (by simp)
    | some c =>
      cases hm : mapComments fs with
      | none => rw [hf, hm] at h; exact absurd h (by simp)
      | some cs =>
        rw [hf, hm] at h
        simp only [Option.some.injEq] at h
        subst h
        simp [ih cs hm]

/-- Claim C5: for a non-empty findings list accepted by the collaborator,
`postReviewComments` creates exactly one `COMMENT`-mode review containing
one inline comment per finding, in order, with the path, line and body of
each comment equal to the path, line and comment of the finding; the number of
comments sent equals the number of findings parsed, with no filtering,
deduplication or line-number correction. -/
theorem claim_C5_inline_review (env : PostEnv) (ts : List (String × Int × String))
    (hne : ts ≠ []) (hr : env.createReviewResult = none) :
    postReviewComments env (.arr (ts.map mkFindingJson)) =
      (.ok .inlinePosted,
       [.createReview "COMMENT" (reviewSummaryText ts.length) (ts.map mkGithubComment) true]) ∧
    (ts.map mkGithubComment).length = ts.length ∧
    (∀ i : Fin ts.length,
      (ts.map mkGithubComment).get ⟨i.1, by rw [List.length_map]; exact i.2⟩ =
        mkGithubComment (ts.get i)) ∧
    (∀ findings ghcs, mapComments findings = some ghcs → ghcs.length = findings.length) := by
  refine ⟨?_, List.length_map ts mkGithubComment, ?_, fun f g h => mapComments_length f g h⟩
  · have hlen : (ts.map mkGithubComment).length = ts.length := List.length_map ts mkGithubComment
    have hnz : ¬ (ts.map mkGithubComment).length = 0 := by
      rw [hlen]
      intro h0
      exact hne (List.eq_nil_of_length_eq_zero h0)
    rw [postReviewComments, mapComments_mk ts]
    simp [hr, hnz, hlen]
    intro h
    exact absurd h hne
  · intro i
    simp [List.get_eq_getElem, List.getElem_map]

/-- Concrete instantiation of `claim_C5_inline_review`: one finding on
`a.py` line 42 produces one review with one matching inline comment. -/
theorem claim_C5_inline_review_witness :
    postReviewComments tPostEnvOk (.arr ([("a.py", (42 : Int), "Kommentar")].map mkFindingJson)) =
      (.ok .inlinePosted,
       [.createReview "COMMENT" (reviewSummaryText [("a.py", (42 : Int), "Kommentar")].length)
          ([("a.py", (42 : Int), "Kommentar")].map mkGithubComment) true]) ∧
    ([("a.py", (42 : Int), "Kommentar")].map mkGithubComment).length =
      [("a.py", (42 : Int), "Kommentar")].length ∧
    (∀ i : Fin [("a.py", (42 : Int), "Kommentar")].length,
      ([("a.py", (42 : Int), "Kommentar")].map mkGithubComment).get
          ⟨i.1, by rw [List.length_map]; exact i.2⟩ =
        mkGithubComment ([("a.py", (42 : Int), "Kommentar")].get i)) ∧
    (∀ findings ghcs, mapComments findings = some ghcs → ghcs.length = findings.length) :=
  claim_C5_inline_review tPostEnvOk [("a.py", (42 : Int), "Kommentar")] (by simp) rfl

theorem joinWith_mem_part (sep : String) (l : List String) (x : String) (hx : x ∈ l) :
    ∃ pre suf, joinWith sep l = pre ++ (x ++ suf) := by
  induction l with
  | nil => cases hx
  | cons a l ih =>
    cases hx with
    | head =>
      cases l with
      | nil => exact ⟨"", "", by simp [joinWith]⟩
      | cons b l2 =>
        exact ⟨"", sep ++ joinWith sep (b :: l2), by simp [joinWith, String.append_assoc]⟩
    | tail _ hmem =>
      cases l with
      | nil => cases hmem
      | cons b l2 =>
        obtain ⟨pre, suf, hpre⟩ := ih hmem
        exact ⟨a ++ sep ++ pre, suf, by simp [joinWith, hpre, String.append_assoc]⟩

theorem fallbackBodyText_mem (s : String) (ghcs : List GithubComment)
    (c : GithubComment) (hc : c ∈ ghcs) :
    ∃ pre suf, fallbackBodyText s ghcs = pre ++ (feedbackEntry c ++ suf) := by
  obtain ⟨pre, suf, hj⟩ :=
    joinWith_mem_part "\n" (ghcs.map feedbackEntry) (feedbackEntry c)
      (List.mem_map_of_mem feedbackEntry hc)
  refine ⟨fallbackPrefixText s ++ pre, suf ++ "\n      ", ?_⟩
  rw [fallbackBodyText, hj]
  simp [String.append_assoc]

/-- Test fixture: a collaborator that rejects the review with HTTP 422 and
accepts issue comments. -/
def tPostEnv422 : PostEnv := ⟨some (.apiError 422 "Unprocessable Entity"), none⟩

/-- Claim C6: exactly when the review call fails with status 422,
`postReviewComments` catches the failure and posts one fallback issue
comment that restates the summary and contains a flat-text entry
`path (Line N): comment` for every finding; any other review-call failure
propagates unmodified. -/
theorem claim_C6_fallback_422 (env : PostEnv) (ts : List (String × Int × String)) (e : JsError)
    (hne : ts ≠ []) (hr : env.createReviewResult = some e)
    (hc : env.createCommentResult = none) :
    (e.status = some 422 →
      postReviewComments env (.arr (ts.map mkFindingJson)) =
        (.ok .fallbackPosted,
         [.createReview "COMMENT" (reviewSummaryText ts.length) (ts.map mkGithubComment) false,
          .createComment
            (fallbackBodyText (reviewSummaryText ts.length) (ts.map mkGithubComment)) true])) ∧
    (e.status ≠ some 422 →
      postReviewComments env (.arr (ts.map mkFindingJson)) =
        (.error e,
         [.createReview "COMMENT" (reviewSummaryText ts.length) (ts.map mkGithubComment) false])) ∧
    (∀ c ∈ ts.map mkGithubComment,
      ∃ pre suf, fallbackBodyText (reviewSummaryText ts.length) (ts.map mkGithubComment) =
        pre ++ (feedbackEntry c ++ suf)) := by
  have hlen : (ts.map mkGithubComment).length = ts.length := List.length_map ts mkGithubComment
  have hnz : ¬ (ts.map mkGithubComment).length = 0 := by
    rw [hlen]
    intro h0
    exact hne (List.eq_nil_of_length_eq_zero h0)
  refine ⟨?_, ?_, fun c hcm => fallbackBodyText_mem _ _ c hcm⟩
  · intro h422
    rw [postReviewComments, mapComments_mk ts]
    simp [hr, hnz, hlen, h422, hc, hne]
  · intro hnot
    rw [postReviewComments, mapComments_mk ts]
    simp [hr, hnz, hlen, hnot, hc, hne]

/-- Concrete instantiation of `claim_C6_fallback_422`: a single finding
rejected with 422 yields the single fallback comment; its body contains
the flat-text entry of the finding. -/
theorem claim_C6_fallback_422_witness :
    ((JsError.apiError 422 "Unprocessable Entity").status = some 422 →
      postReviewComments tPostEnv422 (.arr ([("a.py", (42 : Int), "Kommentar")].map mkFindingJson)) =
        (.ok .fallbackPosted,
         [.createReview "COMMENT" (reviewSummaryText [("a.py", (42 : Int), "Kommentar")].length)
            ([("a.py", (42 : Int), "Kommentar")].map mkGithubComment) false,
          .createComment
            (fallbackBodyText (reviewSummaryText [("a.py", (42 : Int), "Kommentar")].length)
              ([("a.py", (42 : Int), "Kommentar")].map mkGithubComment)) true])) ∧
    ((JsError.apiError 422 "Unprocessable Entity").status ≠ some 422 →
      postReviewComments tPostEnv422 (.arr ([("a.py", (42 : Int), "Kommentar")].map mkFindingJson)) =
        (.error (JsError.apiError 422 "Unprocessable Entity"),
         [.createReview "COMMENT" (reviewSummaryText [("a.py", (42 : Int), "Kommentar")].length)
            ([("a.py", (42 : Int), "Kommentar")].map mkGithubComment) false])) ∧
    (∀ c ∈ [("a.py", (42 : Int), "Kommentar")].map mkGithubComment,
      ∃ pre suf, fallbackBodyText (reviewSummaryText [("a.py", (42 : Int), "Kommentar")].length)
          ([("a.py", (42 : Int), "Kommentar")].map mkGithubComment) =
        pre ++ (feedbackEntry c ++ suf)) :=
  claim_C6_fallback_422 tPostEnv422 [("a.py", (42 : Int), "Kommentar")]
    (.apiError 422 "Unprocessable Entity") (by simp) rfl rfl

theorem fetchCodeDiff_significant (s : String) (hd : 10 ≤ s.length) :
    fetchCodeDiff s = some s := by
  unfold fetchCodeDiff
  rw [if_neg]
  push_neg
  refine ⟨?_, by omega⟩
  intro he
  rw [he] at hd
  exact absurd hd (by decide)

/-- Claim C8: every successful invocation of `postReviewComments` performs
exactly one accepted outward call — the no-issues comment, the inline
review, or the fallback comment — never zero and never more than one. -/
theorem claim_C8_exactly_one_post (env : PostEnv) (j : Json)
    (out : PostOutcome) (calls : List CallEvent)
    (h : postReviewComments env j = (.ok out, calls)) :
    (calls.filter CallEvent.accepted).length = 1 ∧
    (out = .inlinePosted →
      ∃ b cs, calls.filter CallEvent.accepted = [.createReview "COMMENT" b cs true]) ∧
    ((out = .noIssues ∨ out = .fallbackPosted) →
      ∃ b, calls.filter CallEvent.accepted = [.createComment b true]) := by
  cases j with
  | null => simp [postReviewComments] at h
  | bool b => simp [postReviewComments] at h
  | num n => simp [postReviewComments] at h
  | str s => simp [postReviewComments] at h
  | obj fields => simp [postReviewComments] at h
  | arr findings =>
    rw [postReviewComments] at h
    cases hm : mapComments findings with
    | none =>
      rw [hm] at h
      simp at h
    | some ghcs =>
      rw [hm] at h
      by_cases hz : ghcs.length = 0
      · cases hcc : env.createCommentResult with
        | none =>
          simp [hz, hcc] at h
          obtain ⟨ho, hcalls⟩ := h
          subst ho
          subst hcalls
          refine ⟨rfl, ?_, ?_⟩
          · intro hout
            exact absurd hout (by decide)
          · intro _
            exact ⟨noIssuesBody, rfl⟩
        | some e =>
          simp [hz, hcc] at h
      · cases hcr : env.createReviewResult with
        | none =>
          simp [hz, hcr] at h
          obtain ⟨ho, hcalls⟩ := h
          subst ho
          subst hcalls
          refine ⟨rfl, ?_, ?_⟩
          · intro _
            exact ⟨reviewSummaryText ghcs.length, ghcs, rfl⟩
          · intro hor
            rcases hor with h1 | h1 <;> exact absurd h1 (by decide)
        | some e =>
          by_cases hs : e.status = some 422
          · cases hcc : env.createCommentResult with
            | none =>
              simp [hz, hcr, hs, hcc] at h
              obtain ⟨ho, hcalls⟩ := h
              subst ho
              subst hcalls
              refine ⟨rfl, ?_, ?_⟩
              · intro hout
                exact absurd hout (by decide)
              · intro _
                exact ⟨fallbackBodyText (reviewSummaryText ghcs.length) ghcs, rfl⟩
            | some e2 =>
              simp [hz, hcr, hs, hcc] at h
          · simp [hz, hcr, hs] at h

/-- Concrete instantiation of `claim_C8_exactly_one_post`: the no-findings
path makes exactly one accepted outward call. -/
theorem claim_C8_exactly_one_post_witness :
    (([CallEvent.createComment noIssuesBody true].filter CallEvent.accepted).length = 1) ∧
    (PostOutcome.noIssues = .inlinePosted →
      ∃ b cs, [CallEvent.createComment noIssuesBody true].filter CallEvent.accepted =
        [.createReview "COMMENT" b cs true]) ∧
    ((PostOutcome.noIssues = .noIssues ∨ PostOutcome.noIssues = .fallbackPosted) →
      ∃ b, [CallEvent.createComment noIssuesBody true].filter CallEvent.accepted =
        [.createComment b true]) :=
  claim_C8_exactly_one_post tPostEnvOk (.arr []) .noIssues
    [CallEvent.createComment noIssuesBody true] rfl

/-- Test fixture: the model immediately returns the text `42`, which
parses as the JSON number 42 — not an array. -/
def tRespNum : Nat → ModelResponse :=
  fun _ => .withText "42"

/-- Test fixture: a run whose model response parses to a non-array. -/
def tEnvNum : RunEnv :=
  ⟨"pull_request", "key", "gemini", "0123456789", tJsonParse, tRespNum, tPostEnvOk⟩

/-- Claim C9 (amended): `getGeminiReview` performs no shape validation on
the parsed model output beyond `JSON.parse` succeeding and the
`comments.length` read at line 179 not throwing — any response text
parsing to a JSON value other than `null`, array or not, is a successful
attempt returned as the findings; a non-array value then makes the `.map`
call in `postReviewComments` throw outside the retry loop, surfacing as a
fatal failure (no posting call, no retry).  Text parsing to JSON `null` is
the exception: the length read throws inside the try, so that attempt
fails and is retried. -/
theorem claim_C9_no_shape_validation (env : RunEnv) (raw : String) (j : Json)
    (hev : env.eventName = "pull_request")
    (hd : 10 ≤ env.diffData.length)
    (hresp : env.responses 0 = .withText raw)
    (hparse : env.parse raw = some j)
    (hnotnull : j ≠ .null)
    (hnotarr : ∀ xs, j ≠ .arr xs) :
    (∀ (p : String → Option Json) (r : String),
      p r = some Json.null → attemptOk p (.withText r) = none) ∧
    (∀ apiKey model codeDiff,
      getGeminiReview apiKey model codeDiff env.parse env.responses =
        ⟨buildModelRequest apiKey model codeDiff, .ok j, [], 1⟩) ∧
    postReviewComments env.post j = (.error (.typeError mapTypeErrorMsg), []) ∧
    run env = ⟨1, [], some mapTypeErrorMsg⟩ := by
  have hok : attemptOk env.parse (env.responses 0) = some j := by
    rw [hresp]
    exact attemptOk_withText env.parse raw j hparse hnotnull
  have L : getGeminiReviewLoop env.parse env.responses 3 0 "" [] = ⟨.ok j, [], 1⟩ := by
    rw [show (3 : Nat) = 2 + 1 from rfl, loop_succ env.parse env.responses 2 0 "" [] j hok]
  have hpost : postReviewComments env.post j = (.error (.typeError mapTypeErrorMsg), []) := by
    cases j with
    | arr xs => exact absurd rfl (hnotarr xs)
    | null => rfl
    | bool b => rfl
    | num n => rfl
    | str s => rfl
    | obj fields => rfl
  refine ⟨?_, ?_, hpost, ?_⟩
  · intro p r hp
    simp [attemptOk, hp]
  · intro apiKey model codeDiff
    simp [getGeminiReview, L]
  · unfold run
    rw [if_pos hev, fetchCodeDiff_significant env.diffData hd]
    simp [getGeminiReview, L, hpost, JsError.message]

/-- Test fixture: the model always answers with the text `null`. -/
def tRespNull : Nat → ModelResponse :=
  fun _ => .withText "null"

/-- Claim C9 counterexample: the response text `null` parses as valid JSON
(`JSON.parse` yields `null`), yet the attempt is not treated as successful
and no value is returned — the loop retries and exhausts after 3 attempts
with both backoff delays, refuting the original claim that any valid-JSON
text ends the loop at once with the parsed findings. -/
theorem claim_C9_no_shape_validation_counterexample :
    tJsonParse "null" = some Json.null ∧
    getGeminiReview "key" "gemini" "diff" tJsonParse tRespNull ≠
      ⟨buildModelRequest "key" "gemini" "diff", .ok Json.null, [], 1⟩ ∧
    getGeminiReview "key" "gemini" "diff" tJsonParse tRespNull =
      ⟨buildModelRequest "key" "gemini" "diff", .error (exhaustionMessage "null"),
        [2000, 4000], 3⟩ := by
  refine ⟨rfl, ?_, rfl⟩
  intro h
  have h3 : (getGeminiReview "key" "gemini" "diff" tJsonParse tRespNull).attemptsMade = 3 := rfl
  rw [h] at h3
  exact absurd h3 (by decide)

/-- Concrete instantiation of `claim_C9_no_shape_validation`: the model
answers `42`; the run makes one model call, posts nothing, and fails with
the `.map` type error. -/
theorem claim_C9_no_shape_validation_witness :
    (∀ (p : String → Option Json) (r : String),
      p r = some Json.null → attemptOk p (.withText r) = none) ∧
    (∀ apiKey model codeDiff,
      getGeminiReview apiKey model codeDiff tEnvNum.parse tEnvNum.responses =
        ⟨buildModelRequest apiKey model codeDiff, .ok (.num 42), [], 1⟩) ∧
    postReviewComments tEnvNum.post (.num 42) = (.error (.typeError mapTypeErrorMsg), []) ∧
    run tEnvNum = ⟨1, [], some mapTypeErrorMsg⟩ :=
  claim_C9_no_shape_validation tEnvNum "42" (.num 42) rfl (by decide) rfl rfl
    (fun h => Json.noConfusion h) (fun xs h => Json.noConfusion h)
